import Mathlib

/-!
Shallow embedding of `src/api/index.py` (thera-ai): the per-user therapy chat
session state machine, the crisis keyword gate, the diagnosis formulation and
parsing, and the `/api/chat` request handler.  The external inference backend
is modelled as an oracle `String → BackendOutcome`; the handler additionally
returns the list of prompts it sent to the backend, so that "the backend was
not invoked" is expressible.
-/

namespace TheraAI

/-! ## Basic string helpers (models of the Python string operations used) -/

/-- Boolean test that `pre` is a prefix of `l` (model of `str.startswith`
restricted to character lists). -/
def prefixB : List Char → List Char → Bool
  | [], _ => true
  | _ :: _, [] => false
  | a :: as, b :: bs => a = b && prefixB as bs

/-- Boolean substring test: `hasSub hay needle` models the Python expression
`needle in hay` on strings, as character lists. -/
def hasSub : List Char → List Char → Bool
  | [], needle => needle.isEmpty
  | a :: t, needle => prefixB needle (a :: t) || hasSub t needle

theorem prefixB_iff (pre l : List Char) :
    prefixB pre l = true ↔ ∃ post, pre ++ post = l := by
  induction pre generalizing l with
  | nil => simp [prefixB]
  | cons a as ih =>
    cases l with
    | nil => simp [prefixB]
    | cons b bs =>
      simp only [prefixB, Bool.and_eq_true, decide_eq_true_eq, ih, List.cons_append,
        List.cons.injEq]
      constructor
      · rintro ⟨rfl, post, rfl⟩; exact ⟨post, rfl, rfl⟩
      · rintro ⟨post, rfl, rfl⟩; exact ⟨rfl, post, rfl⟩

theorem hasSub_iff (hay needle : List Char) :
    hasSub hay needle = true ↔ ∃ pre post, pre ++ needle ++ post = hay := by
  induction hay with
  | nil =>
    simp only [hasSub, List.isEmpty_iff]
    constructor
    · rintro rfl; exact ⟨[], [], rfl⟩
    · rintro ⟨pre, post, h⟩
      rcases List.append_eq_nil.mp h with ⟨h1, h2⟩
      exact (List.append_eq_nil.mp h1).2
  | cons a t ih =>
    simp only [hasSub, Bool.or_eq_true, prefixB_iff, ih]
    constructor
    · rintro (⟨post, h⟩ | ⟨pre, post, rfl⟩)
      · exact ⟨[], post, by simpa using h⟩
      · exact ⟨a :: pre, post, rfl⟩
    · rintro ⟨pre, post, h⟩
      cases pre with
      | nil => exact Or.inl ⟨post, by simpa using h⟩
      | cons p ps =>
        right
        rcases h with h
        simp only [List.cons_append, List.cons.injEq] at h
        exact ⟨ps, post, h.2⟩

/-- Strip all characters of `cs` from both ends of `s`
(model of Python `str.strip(cs)`). -/
def stripChars (cs : String) (s : String) : String :=
  String.mk (((s.data.dropWhile (fun c => cs.data.contains c)).reverse.dropWhile
      (fun c => cs.data.contains c)).reverse)

/-- Model of Python `str.strip()` with no argument: whitespace from both ends. -/
def pyStrip (s : String) : String :=
  String.mk (((s.data.dropWhile Char.isWhitespace).reverse.dropWhile
      Char.isWhitespace).reverse)

/-- Model of Python `str.lower()` (ASCII case mapping; every string the
source compares case-insensitively is ASCII). -/
def lowerStr (s : String) : String := String.mk (s.data.map Char.toLower)

/-- Model of Python `str.startswith(pre)`. -/
def startsWithStr (s pre : String) : Bool := prefixB pre.data s.data

/-- First occurrence of `sep` in `l`: the part before it and the part after
it, or `none` when `sep` does not occur. -/
def splitFirst (sep : List Char) : List Char → Option (List Char × List Char)
  | [] => none
  | a :: t =>
    if prefixB sep (a :: t) then some ([], (a :: t).drop sep.length)
    else (splitFirst sep t).map (fun p => (a :: p.1, p.2))

/-- Split at every occurrence of `sep`, left to right.  The fuel is bounded
by the list length, which always suffices: every performed split consumes at
least one character of the remainder (the separator is nonempty there), so
when the fuel runs out the remainder is empty and has no further
occurrence. -/
def splitOnListAux (sep : List Char) : Nat → List Char → List (List Char)
  | 0, l => [l]
  | fuel + 1, l =>
    match splitFirst sep l with
    | none => [l]
    | some (b, a) => b :: splitOnListAux sep fuel a

/-- Model of Python `str.split(sep)` for nonempty `sep` (every separator the
source uses is a nonempty literal); an empty separator yields the whole
string, unsplit. -/
def pySplit (sep : String) (s : String) : List String :=
  if sep.data = [] then [s]
  else (splitOnListAux sep.data s.data.length s.data).map String.mk

/-- Model of Python `str.replace(pat, rep)` for nonempty `pat`: replace every
non-overlapping occurrence. -/
def pyReplace (pat rep : String) (s : String) : String :=
  String.mk (List.intercalate rep.data ((pySplit pat s).map String.data))

/-- Model of Python `str.splitlines` for LF-separated text (the only line
separator the embedded strings use). -/
def splitlines (s : String) : List String := pySplit "\n" s

/-- Model of Python `int(s)` on already-stripped input: an optional sign
followed by decimal digits (digit-group underscores are not modelled). -/
def pyInt? (s : String) : Option Int :=
  match s.data with
  | [] => none
  | '-' :: rest =>
    if rest ≠ [] ∧ rest.all Char.isDigit then
      some (-(Int.ofNat (rest.foldl (fun n c => 10 * n + (c.toNat - '0'.toNat)) 0)))
    else none
  | '+' :: rest =>
    if rest ≠ [] ∧ rest.all Char.isDigit then
      some (Int.ofNat (rest.foldl (fun n c => 10 * n + (c.toNat - '0'.toNat)) 0))
    else none
  | cs =>
    if cs.all Char.isDigit then
      some (Int.ofNat (cs.foldl (fun n c => 10 * n + (c.toNat - '0'.toNat)) 0))
    else none

/-! ## Data model (`Session`, `Diagnosis`, message records; index.py lines 18-48) -/

/-- Message role; the handler only ever stores `user` and `assistant` roles. -/
inductive Role where
  | user
  | assistant
deriving DecidableEq, Repr

/-- Python `str.capitalize()` applied to the two role strings. -/
def Role.capitalize : Role → String
  | .user => "User"
  | .assistant => "Assistant"

/-- One entry of `session.messages`: the dict `\x7b"role": ..., "content": ...\x7d`. -/
structure Message where
  role : Role
  content : String
deriving DecidableEq, Repr

/-- The `Diagnosis` class (index.py lines 34-39). -/
structure Diagnosis where
  emotions : List String
  conditions : List String
  severity : Int
  confidence : Int
deriving DecidableEq, Repr

/-- The `Session` class (index.py lines 18-24); `therapy_plan` is its
`TherapyPlan.strategies` list. -/
structure Session where
  user_id : String
  messages : List Message
  diagnosis : Option Diagnosis
  therapy_plan : List String
  completed : Bool
deriving DecidableEq, Repr

/-- The module-level `sessions` dict, as an association list keyed by user id. -/
abbrev SessionStore := List (String × Session)

/-- `Session(user_id)`: the freshly constructed session. -/
def freshSession (user_id : String) : Session :=
  { user_id := user_id, messages := [], diagnosis := none, therapy_plan := [],
    completed := false }

/-- Dict lookup `sessions[user_id]` (first matching key). -/
def lookupSession : SessionStore → String → Option Session
  | [], _ => none
  | (k, v) :: rest, i => if k = i then some v else lookupSession rest i

/-- Dict update `sessions[user_id] = s` (replace the binding, or add it). -/
def setSession : SessionStore → String → Session → SessionStore
  | [], i, s => [(i, s)]
  | (k, v) :: rest, i, s =>
    if k = i then (k, s) :: rest else (k, v) :: setSession rest i s

/-- `get_or_create_session` (index.py lines 53-57): the session the handler
works on — the stored one, or a fresh one for an unknown id. -/
def get_or_create_session (st : SessionStore) (user_id : String) : Session :=
  (lookupSession st user_id).getD (freshSession user_id)

/-- The `/api/clear` handler (index.py lines 247-255): resets the store. -/
def clearStore (_ : SessionStore) : SessionStore := []

/-! ## Inference backend oracle and `generate_ai_response` (lines 59-94) -/

/-- What one call to the remote inference service can do: return text, raise
`requests.RequestException`, or raise any other exception (e.g. a malformed
response body). -/
inductive BackendOutcome where
  | ok (content : String)
  | requestError
  | otherError
deriving DecidableEq, Repr

/-- Fallback text for `requests.RequestException` (index.py line 91). -/
def requestFallback : String :=
  "I\x27m having trouble connecting right now. Please try again."

/-- Fallback text for any other exception (index.py line 94). -/
def processFallback : String :=
  "I\x27m having trouble processing that right now. Please try again."

/-- `generate_ai_response` (index.py lines 59-94): the successful content is
stripped; both error classes are caught and mapped to fixed fallback text, so
the function is total. -/
def generate_ai_response (backend : String → BackendOutcome) (prompt : String) :
    String :=
  match backend prompt with
  | .ok content => pyStrip content
  | .requestError => requestFallback
  | .otherError => processFallback

/-! ## Crisis detector (`check_for_crisis`, index.py lines 96-102) -/

/-- The fixed high-risk keyword list (index.py line 98). -/
def risk_keywords : List String := ["suicide", "kill myself", "self-harm", "end it all"]

/-- `check_for_crisis` (index.py lines 96-102): `keyword in message.lower()`
for each keyword, true on the first hit. -/
def check_for_crisis (message : String) : Bool :=
  risk_keywords.any (fun keyword => hasSub (lowerStr message).data keyword.data)

/-! ## Prompt builders (the f-string templates of index.py) -/

/-- The Markdown conversation log (index.py lines 120 and 203). -/
def buildContext (msgs : List Message) : String :=
  String.intercalate "\n"
    (msgs.map (fun msg => "**" ++ msg.role.capitalize ++ "**: " ++ msg.content))

/-- The `classify_emotions` prompt (index.py lines 106-111). -/
def classifyPrompt (message : String) : String :=
  "<s>[INST] Analyze the following message and list the primary emotions in **Markdown** bullet points (e.g., **anxiety**, **stress**, **sadness**, **grief**):\n\n\"" ++
    message ++ "\"\n\nRespond only with the list. [/INST]"

/-- The `diagnose` prompt (index.py lines 121-126). -/
def diagnosisPrompt (context : String) : String :=
  "<s>[INST] Based on the conversation below, provide a **diagnosis summary** in **Markdown**. Include a list of potential **conditions**, a **severity** score (1-5), and a **confidence** percentage (0-100%).\n\n### Conversation Log\n" ++
    context ++
    "\n\n**Diagnosis Summary:**\n- **Conditions:** \n- **Severity:** \n- **Confidence:** \n\nFill in the details accordingly. [/INST]"

/-- The `generate_coping_strategies` prompt (index.py lines 153-160). -/
def copingPrompt (d : Diagnosis) : String :=
  "<s>[INST] Based on the following diagnosis details in **Markdown**:\n\n- **Emotions:** " ++
    String.intercalate ", " d.emotions ++ "\n- **Conditions:** " ++
    String.intercalate ", " d.conditions ++ "\n- **Severity:** " ++
    toString d.severity ++
    "\n\nProvide **three actionable coping strategies** in **Markdown**. Format your answer using bullet points and integrate a brief explanation for each suggestion. Please do not use explicit labels for the sections; instead, structure the response with user-friendly headings. [/INST]"

/-- The chat prompt used once a diagnosis exists (index.py lines 207-217). -/
def mainPromptWithDiagnosis (context : String) (d : Diagnosis) : String :=
  "<s>[INST] The conversation so far in **Markdown**:\n\n" ++ context ++
    "\n\nGiven the **diagnosis** with conditions: " ++
    String.intercalate ", " d.conditions ++ " and severity: **" ++
    toString d.severity ++
    "**, please respond in **Markdown** with an empathetic message that includes the following sections:\n\n- **Your Feelings:** Briefly acknowledge and validate your current emotional state.\n- **Next Steps:** Provide one or two coping suggestions or strategies naturally integrated into the text.\n- **Reflection:** Pose a thoughtful, open-ended question to guide further discussion.\n\nUse headers, bullet lists, **bold**, and *italics* as appropriate. [/INST]"

/-- The chat prompt used before a diagnosis exists (index.py lines 219-228). -/
def mainPromptPlain (context : String) : String :=
  "<s>[INST] The conversation so far in **Markdown**:\n\n" ++ context ++
    "\n\nPlease respond in **Markdown** with an empathetic and supportive message that includes the following sections:\n\n- **Your Feelings:** Validate your current emotional state.\n- **Next Steps:** Provide one or two useful suggestions seamlessly integrated into the text.\n- **Reflection:** Ask a reflective question to encourage further sharing.\n\nAvoid using explicit labels like \x27Actionable Tip\x27 or \x27Open-Ended Question.\x27 Use headers, bullet points, **bold** text, and *italics* where it helps clarity. [/INST]"

/-! ## Emotion classification and diagnosis parsing (lines 104-164) -/

/-- The bullet-line list comprehension shared by `classify_emotions` (line 113)
and `generate_coping_strategies` (line 163):
lines starting with a dash, with dashes/spaces stripped, then whitespace. -/
def bulletLines (response : String) : List String :=
  ((splitlines response).filter (fun line => startsWithStr line "-")).map
    (fun line => pyStrip (stripChars "- " line))

/-- `classify_emotions` (index.py lines 104-116). -/
def classify_emotions (backend : String → BackendOutcome) (message : String) :
    List String :=
  let response := generate_ai_response backend (classifyPrompt message)
  let emotions := bulletLines response
  if emotions = [] then [pyStrip response] else emotions

/-- First line of the response starting with `label`
(`[line for line in response.splitlines() if line.startswith(label)][0]`,
index.py lines 130-132). -/
def firstFieldLine (label : String) (response : String) : Option String :=
  (splitlines response).find? (fun line => startsWithStr line label)

/-- The conditions value (index.py line 134): the text after the label on the
first conditions line, or the `"General stress"` default; this extraction
cannot raise. -/
def conditionsParsed (response : String) : String :=
  match firstFieldLine "- **Conditions:**" response with
  | some l => pyStrip ((pySplit "**Conditions:**" l).getLastD "")
  | none => "General stress"

/-- The severity value (index.py line 135): `int(...)` of the text after the
label, which may fail (`none` = the Python `int()` call raising), or the
default `3` when the line is absent. -/
def severityParsed (response : String) : Option Int :=
  match firstFieldLine "- **Severity:**" response with
  | some l => pyInt? (pyStrip ((pySplit "**Severity:**" l).getLastD ""))
  | none => some 3

/-- The confidence value (index.py line 136): `int(...)` of the text after the
label with `%` removed, or the default `80` when the line is absent. -/
def confidenceParsed (response : String) : Option Int :=
  match firstFieldLine "- **Confidence:**" response with
  | some l => pyInt? (pyReplace "%" "" (pyStrip ((pySplit "**Confidence:**" l).getLastD "")))
  | none => some 80

/-- The `try` block of `diagnose` (index.py lines 129-136): `none` exactly when
one of the `int()` calls raises. -/
def parseTry (response : String) : Option (String × Int × Int) :=
  match severityParsed response, confidenceParsed response with
  | some severity, some confidence =>
    some (conditionsParsed response, severity, confidence)
  | _, _ => none

/-- `try`/`except` of `diagnose` (index.py lines 129-141): on any parse
exception all three fields fall back to the fixed defaults; the parser is
total and never raises to its caller. -/
def parseDiagnosisFields (response : String) : String × Int × Int :=
  (parseTry response).getD ("General stress", 3, 80)

/-- The `Diagnosis` object built by `diagnose` (index.py lines 118-149) from a
message history: diagnosis-summary call, field parsing, and the secondary
emotions call on the same context. -/
def mkDiagnosis (backend : String → BackendOutcome) (msgs : List Message) :
    Diagnosis :=
  let context := buildContext msgs
  let response := generate_ai_response backend (diagnosisPrompt context)
  let fields := parseDiagnosisFields response
  let conditions := fields.1
  { emotions := classify_emotions backend context,
    conditions :=
      if conditions ≠ "" then
        ((pySplit "," conditions).filter (fun cond => cond ≠ "")).map pyStrip
      else ["General stress"],
    severity := fields.2.1,
    confidence := fields.2.2 }

/-- `diagnose(session)` (index.py lines 118-149): stores the formed
`Diagnosis` on the session. -/
def diagnose (backend : String → BackendOutcome) (s : Session) : Session :=
  { s with diagnosis := some (mkDiagnosis backend s.messages) }

/-- `generate_coping_strategies` (index.py lines 151-164). -/
def generate_coping_strategies (backend : String → BackendOutcome)
    (diagnosis : Diagnosis) : List String :=
  let response := generate_ai_response backend (copingPrompt diagnosis)
  let strategies := bulletLines response
  if strategies = [] then [pyStrip response] else strategies

/-! ## The `/api/chat` handler (index.py lines 173-245) -/

/-- The fixed crisis safety message (index.py lines 185-189). -/
def crisis_response : String :=
  "**Emergency Alert:** It sounds like you\x27re in intense distress. If you feel unsafe or are in immediate danger, please call your local emergency services or crisis hotline immediately.\n\nRemember, you deserve help and support."

/-- The fixed conclusion notice suffixed to the outgoing text
(index.py lines 236-239). -/
def conclusionSuffix : String :=
  "\n\n### Session Conclusion\n*It seems we have covered a lot today. Would you like to explore further strategies or schedule another session?*"

/-- The request body: `data.get` of a field yields its value when present,
so a field is an `Option String` and `getD ""` models `data.get(key, "")`. -/
structure ChatRequest where
  message : Option String
  id : Option String
deriving DecidableEq, Repr

/-- The JSON/status responses the `chat` handler can produce. -/
inductive ChatResponse where
  | ok (response : String) (id : String)
  | badRequest (error : String)
  | serverError (error : String)
deriving DecidableEq, Repr

/-- Result of one `/api/chat` request: the updated store, the HTTP-level
response, and the prompts sent to the inference backend, in call order. -/
structure ChatResult where
  sessions : SessionStore
  response : ChatResponse
  backendCalls : List String
deriving DecidableEq

/-- `session.messages.append(\x7b"role": "user", ...\x7d)` (index.py line 194). -/
def afterUser (s : Session) (user_message : String) : Session :=
  { s with messages := s.messages ++ [⟨.user, user_message⟩] }

/-- The diagnosis block of `chat` (index.py lines 196-200) applied to the
session after the user append: one-time, guarded by the diagnosis-absent
check. -/
def sessionAfterDiagnose (backend : String → BackendOutcome) (s : Session) :
    Session :=
  if s.messages.length ≥ 5 ∧ s.diagnosis = none then
    { diagnose backend s with
      therapy_plan := generate_coping_strategies backend (mkDiagnosis backend s.messages) }
  else s

/-- The backend prompts issued by the diagnosis block (diagnosis summary,
emotion classification, coping strategies), empty when the block is skipped. -/
def diagnoseCalls (backend : String → BackendOutcome) (s : Session) :
    List String :=
  if s.messages.length ≥ 5 ∧ s.diagnosis = none then
    [diagnosisPrompt (buildContext s.messages), classifyPrompt (buildContext s.messages),
     copingPrompt (mkDiagnosis backend s.messages)]
  else []

/-- Prompt selection for the main response (index.py lines 206-228). -/
def mainPrompt (s : Session) : String :=
  match s.diagnosis with
  | some d => mainPromptWithDiagnosis (buildContext s.messages) d
  | none => mainPromptPlain (buildContext s.messages)

/-- The accepted-path body of `chat` on the addressed session
(index.py lines 194-241): user append, optional diagnosis block, main
response, assistant append, conclusion check.  Returns the updated session,
the outgoing response text, and the backend prompts issued. -/
def stepSession (backend : String → BackendOutcome) (s : Session)
    (user_message : String) : Session × String × List String :=
  let s1 := afterUser s user_message
  let s2 := sessionAfterDiagnose backend s1
  let prompt := mainPrompt s2
  let assistant_message := generate_ai_response backend prompt
  let s3 : Session := { s2 with messages := s2.messages ++ [⟨.assistant, assistant_message⟩] }
  if s3.messages.length ≥ 10 ∧ s3.completed = false then
    ({ s3 with completed := true }, assistant_message ++ conclusionSuffix,
     diagnoseCalls backend s1 ++ [prompt])
  else
    (s3, assistant_message, diagnoseCalls backend s1 ++ [prompt])

/-- The `/api/chat` handler (index.py lines 173-245): field validation, crisis
gate, then the accepted path. -/
def chat (backend : String → BackendOutcome) (st : SessionStore)
    (data : ChatRequest) : ChatResult :=
  let user_message := data.message.getD ""
  let user_id := data.id.getD ""
  if user_message = "" ∨ user_id = "" then
    ⟨st, .badRequest "Missing message or user ID", []⟩
  else if check_for_crisis user_message then
    ⟨st, .ok crisis_response user_id, []⟩
  else
    let r := stepSession backend (get_or_create_session st user_id) user_message
    ⟨setSession st user_id r.1, .ok r.2.1 user_id, r.2.2⟩

/-- A sequence of `/api/chat` calls for one user id, keeping only the store. -/
def runChats (backend : String → BackendOutcome) (st : SessionStore)
    (user_id : String) (msgs : List String) : SessionStore :=
  msgs.foldl (fun acc m => (chat backend acc ⟨some m, some user_id⟩).sessions) st

/-- Message count of the addressed session (0 when the id is unknown). -/
def sessionLen (st : SessionStore) (user_id : String) : Nat :=
  (get_or_create_session st user_id).messages.length

/-- A backend oracle for which every call raises a network error
(`requests.RequestException`): a total backend outage. -/
def downBackend : String → BackendOutcome := fun _ => BackendOutcome.requestError

/-- The assistant text produced on the accepted path: the main-response
backend call on the session after the user append and the optional diagnosis
block. -/
def assistantOf (backend : String → BackendOutcome) (s : Session)
    (user_message : String) : String :=
  generate_ai_response backend
    (mainPrompt (sessionAfterDiagnose backend (afterUser s user_message)))

/-- The `Diagnosis` every total backend outage yields: the fallback text as
sole emotion and the fixed parse defaults. -/
def outageDiagnosis : Diagnosis :=
  { emotions := [requestFallback], conditions := ["General stress"],
    severity := 3, confidence := 80 }

/-- A four-message session (two completed exchanges), one accepted call away
from the diagnosis threshold. -/
def sampleSession4 : Session :=
  { user_id := "u",
    messages := [⟨.user, "a"⟩, ⟨.assistant, "b"⟩, ⟨.user, "c"⟩, ⟨.assistant, "d"⟩],
    diagnosis := none, therapy_plan := [], completed := false }

/-- A store holding only `sampleSession4`. -/
def sampleStore4 : SessionStore := [("u", sampleSession4)]

/-- An eight-message diagnosed session, one accepted call away from the
conclusion threshold. -/
def sampleSession8 : Session :=
  { user_id := "u",
    messages := [⟨.user, "a"⟩, ⟨.assistant, "b"⟩, ⟨.user, "c"⟩, ⟨.assistant, "d"⟩,
      ⟨.user, "e"⟩, ⟨.assistant, "f"⟩, ⟨.user, "g"⟩, ⟨.assistant, "h"⟩],
    diagnosis := some outageDiagnosis, therapy_plan := ["rest"], completed := false }

/-- A store holding only `sampleSession8`. -/
def sampleStore8 : SessionStore := [("u", sampleSession8)]

/-! ## Store lemmas -/

theorem lookup_set_self (st : SessionStore) (i : String) (s : Session) :
    lookupSession (setSession st i s) i = some s := by
  induction st with
  | nil => simp [setSession, lookupSession]
  | cons kv rest ih =>
    obtain ⟨k, v⟩ := kv
    by_cases h : k = i
    · simp [setSession, lookupSession, h]
    · simp [setSession, lookupSession, h, ih]

/-! ## Handler-branch lemmas -/

theorem chat_invalid (b : String → BackendOutcome) (st : SessionStore)
    (data : ChatRequest) (h : data.message.getD "" = "" ∨ data.id.getD "" = "") :
    chat b st data = ⟨st, .badRequest "Missing message or user ID", []⟩ := by
  simp only [chat]
  rw [if_pos h]

theorem chat_crisis (b : String → BackendOutcome) (st : SessionStore)
    (data : ChatRequest) (hm : data.message.getD "" ≠ "")
    (hi : data.id.getD "" ≠ "")
    (hc : check_for_crisis (data.message.getD "") = true) :
    chat b st data = ⟨st, .ok crisis_response (data.id.getD ""), []⟩ := by
  simp only [chat]
  rw [if_neg (by push_neg; exact ⟨hm, hi⟩), if_pos hc]

theorem chat_accepted (b : String → BackendOutcome) (st : SessionStore)
    (data : ChatRequest) (hm : data.message.getD "" ≠ "")
    (hi : data.id.getD "" ≠ "")
    (hc : check_for_crisis (data.message.getD "") = false) :
    chat b st data =
      ⟨setSession st (data.id.getD "")
          (stepSession b (get_or_create_session st (data.id.getD ""))
            (data.message.getD "")).1,
        .ok (stepSession b (get_or_create_session st (data.id.getD ""))
            (data.message.getD "")).2.1 (data.id.getD ""),
        (stepSession b (get_or_create_session st (data.id.getD ""))
            (data.message.getD "")).2.2⟩ := by
  simp only [chat]
  rw [if_neg (by push_neg; exact ⟨hm, hi⟩), if_neg (by simp [hc])]

/-- After an accepted call, the stored session for the caller's id is exactly
the session `stepSession` produced. -/
theorem get_or_create_after_accepted (b : String → BackendOutcome)
    (st : SessionStore) (data : ChatRequest) (hm : data.message.getD "" ≠ "")
    (hi : data.id.getD "" ≠ "")
    (hc : check_for_crisis (data.message.getD "") = false) :
    get_or_create_session (chat b st data).sessions (data.id.getD "") =
      (stepSession b (get_or_create_session st (data.id.getD ""))
        (data.message.getD "")).1 := by
  rw [chat_accepted b st data hm hi hc]
  simp [get_or_create_session, lookup_set_self]

/-! ## Session-stage lemmas -/

theorem sessionAfterDiagnose_messages (b : String → BackendOutcome)
    (s : Session) : (sessionAfterDiagnose b s).messages = s.messages := by
  unfold sessionAfterDiagnose
  split <;> rfl

theorem sessionAfterDiagnose_completed (b : String → BackendOutcome)
    (s : Session) : (sessionAfterDiagnose b s).completed = s.completed := by
  unfold sessionAfterDiagnose
  split <;> rfl

theorem sessionAfterDiagnose_diag (b : String → BackendOutcome) (s : Session) :
    (sessionAfterDiagnose b s).diagnosis =
      if s.messages.length ≥ 5 ∧ s.diagnosis = none then
        some (mkDiagnosis b s.messages)
      else s.diagnosis := by
  by_cases h : s.messages.length ≥ 5 ∧ s.diagnosis = none
  · simp [sessionAfterDiagnose, diagnose, h]
  · simp [sessionAfterDiagnose, h]

theorem sessionAfterDiagnose_plan (b : String → BackendOutcome) (s : Session) :
    (sessionAfterDiagnose b s).therapy_plan =
      if s.messages.length ≥ 5 ∧ s.diagnosis = none then
        generate_coping_strategies b (mkDiagnosis b s.messages)
      else s.therapy_plan := by
  by_cases h : s.messages.length ≥ 5 ∧ s.diagnosis = none
  · simp [sessionAfterDiagnose, diagnose, h]
  · simp [sessionAfterDiagnose, h]

theorem stepSession_messages (b : String → BackendOutcome) (s : Session)
    (m : String) :
    (stepSession b s m).1.messages =
      s.messages ++ [⟨.user, m⟩, ⟨.assistant, assistantOf b s m⟩] := by
  simp only [stepSession, assistantOf]
  split <;>
    simp [sessionAfterDiagnose_messages, afterUser]

theorem stepSession_diag (b : String → BackendOutcome) (s : Session)
    (m : String) :
    (stepSession b s m).1.diagnosis =
      (sessionAfterDiagnose b (afterUser s m)).diagnosis := by
  simp only [stepSession]
  split <;> rfl

theorem stepSession_plan (b : String → BackendOutcome) (s : Session)
    (m : String) :
    (stepSession b s m).1.therapy_plan =
      (sessionAfterDiagnose b (afterUser s m)).therapy_plan := by
  simp only [stepSession]
  split <;> rfl

theorem stepSession_len (b : String → BackendOutcome) (s : Session)
    (m : String) :
    (stepSession b s m).1.messages.length = s.messages.length + 2 := by
  rw [stepSession_messages]
  simp

theorem stepSession_completed_of_true (b : String → BackendOutcome)
    (s : Session) (m : String) (h : s.completed = true) :
    (stepSession b s m).1.completed = true := by
  have h2 : (sessionAfterDiagnose b (afterUser s m)).completed = true := by
    rw [sessionAfterDiagnose_completed]; exact h
  simp only [stepSession]
  split
  · rfl
  · exact h2

theorem stepSession_completed_iff (b : String → BackendOutcome) (s : Session)
    (m : String) :
    (stepSession b s m).1.completed = true ↔
      (s.completed = true ∨ (stepSession b s m).1.messages.length ≥ 10) := by
  have h2 : (sessionAfterDiagnose b (afterUser s m)).completed = s.completed := by
    rw [sessionAfterDiagnose_completed]; rfl
  simp only [stepSession]
  split <;> rename_i hcond
  · simp only []
    constructor
    · intro _; exact Or.inr hcond.1
    · intro _; trivial
  · simp only []
    rw [h2] at hcond ⊢
    cases hcomp : s.completed with
    | true => simp
    | false =>
      rw [hcomp] at hcond
      constructor
      · intro hfalse; exact absurd hfalse (by simp)
      · rintro (hx | hx)
        · exact absurd hx (by simp)
        · exact absurd ⟨hx, rfl⟩ hcond

theorem stepSession_out (b : String → BackendOutcome) (s : Session)
    (m : String) :
    (stepSession b s m).2.1 =
      if s.messages.length + 2 ≥ 10 ∧ s.completed = false then
        assistantOf b s m ++ conclusionSuffix
      else assistantOf b s m := by
  have hlen : (sessionAfterDiagnose b (afterUser s m)).messages.length
      = s.messages.length + 1 := by
    rw [sessionAfterDiagnose_messages]; simp [afterUser]
  have hcompl : (sessionAfterDiagnose b (afterUser s m)).completed
      = s.completed := sessionAfterDiagnose_completed b (afterUser s m)
  simp only [stepSession, assistantOf]
  split <;> rename_i hcond
  · rw [if_pos]
    refine ⟨?_, by rw [← hcompl]; exact hcond.2⟩
    have h1 := hcond.1
    simp only [List.length_append, List.length_cons, List.length_nil, hlen] at h1
    omega
  · rw [if_neg]
    intro hout
    apply hcond
    refine ⟨?_, by rw [hcompl]; exact hout.2⟩
    have h1 := hout.1
    simp only [List.length_append, List.length_cons, List.length_nil, hlen]
    omega

/-! ## Multi-call lemmas -/

theorem sessionLen_chat_accepted (b : String → BackendOutcome)
    (st : SessionStore) (m i : String) (hm : m ≠ "") (hi : i ≠ "")
    (hc : check_for_crisis m = false) :
    sessionLen (chat b st ⟨some m, some i⟩).sessions i = sessionLen st i + 2 := by
  have h := get_or_create_after_accepted b st ⟨some m, some i⟩
    (by simpa using hm) (by simpa using hi) (by simpa using hc)
  simp only [Option.getD_some] at h
  unfold sessionLen
  rw [h, stepSession_len]

theorem runChats_len (b : String → BackendOutcome) (i : String)
    (msgs : List String) :
    ∀ st : SessionStore, (∀ m ∈ msgs, m ≠ "" ∧ check_for_crisis m = false) →
      i ≠ "" →
      sessionLen (runChats b st i msgs) i = sessionLen st i + 2 * msgs.length := by
  induction msgs with
  | nil => intro st _ _; simp [runChats]
  | cons m rest ih =>
    intro st h hi
    have hstep : runChats b st i (m :: rest)
        = runChats b (chat b st ⟨some m, some i⟩).sessions i rest := rfl
    rw [hstep, ih _ (fun x hx => h x (List.mem_cons_of_mem m hx)) hi,
      sessionLen_chat_accepted b st m i (h m (List.mem_cons_self m rest)).1 hi
        (h m (List.mem_cons_self m rest)).2]
    simp [List.length_cons]
    ring

theorem chat_same_id_diag (b : String → BackendOutcome) (st : SessionStore)
    (m i : String) (d : Diagnosis)
    (h : (get_or_create_session st i).diagnosis = some d) :
    (get_or_create_session (chat b st ⟨some m, some i⟩).sessions i).diagnosis
      = some d := by
  by_cases hm : m = ""
  · rw [chat_invalid b st _ (Or.inl (by simp [hm]))]; exact h
  by_cases hi : i = ""
  · rw [chat_invalid b st _ (Or.inr (by simp [hi]))]; exact h
  by_cases hc : check_for_crisis m = true
  · rw [chat_crisis b st _ (by simpa using hm) (by simpa using hi) (by simpa using hc)]
    exact h
  · have hacc := get_or_create_after_accepted b st ⟨some m, some i⟩
      (by simpa using hm) (by simpa using hi)
      (by simpa using (Bool.not_eq_true _).mp hc)
    simp only [Option.getD_some] at hacc
    rw [hacc, stepSession_diag, sessionAfterDiagnose_diag, if_neg]
    · exact h
    · rintro ⟨-, hnone⟩
      have : (afterUser (get_or_create_session st i) m).diagnosis = some d := h
      rw [this] at hnone
      cases hnone

theorem chat_same_id_completed (b : String → BackendOutcome)
    (st : SessionStore) (m i : String)
    (h : (get_or_create_session st i).completed = true) :
    (get_or_create_session (chat b st ⟨some m, some i⟩).sessions i).completed
      = true := by
  by_cases hm : m = ""
  · rw [chat_invalid b st _ (Or.inl (by simp [hm]))]; exact h
  by_cases hi : i = ""
  · rw [chat_invalid b st _ (Or.inr (by simp [hi]))]; exact h
  by_cases hc : check_for_crisis m = true
  · rw [chat_crisis b st _ (by simpa using hm) (by simpa using hi) (by simpa using hc)]
    exact h
  · have hacc := get_or_create_after_accepted b st ⟨some m, some i⟩
      (by simpa using hm) (by simpa using hi)
      (by simpa using (Bool.not_eq_true _).mp hc)
    simp only [Option.getD_some] at hacc
    rw [hacc]
    exact stepSession_completed_of_true b _ m h

theorem runChats_diag_preserved (b : String → BackendOutcome) (i : String)
    (d : Diagnosis) (msgs : List String) :
    ∀ st : SessionStore, (get_or_create_session st i).diagnosis = some d →
      (get_or_create_session (runChats b st i msgs) i).diagnosis = some d := by
  induction msgs with
  | nil => intro st h; exact h
  | cons m rest ih =>
    intro st h
    exact ih _ (chat_same_id_diag b st m i d h)

theorem runChats_completed_preserved (b : String → BackendOutcome) (i : String)
    (msgs : List String) :
    ∀ st : SessionStore, (get_or_create_session st i).completed = true →
      (get_or_create_session (runChats b st i msgs) i).completed = true := by
  induction msgs with
  | nil => intro st h; exact h
  | cons m rest ih =>
    intro st h
    exact ih _ (chat_same_id_completed b st m i h)

/-! ## Backend-outage lemmas -/

theorem generate_ai_response_down (b : String → BackendOutcome)
    (hb : ∀ p, b p = BackendOutcome.requestError) (p : String) :
    generate_ai_response b p = requestFallback := by
  simp [generate_ai_response, hb]

theorem mkDiagnosis_outage (b : String → BackendOutcome)
    (hb : ∀ p, b p = BackendOutcome.requestError) (msgs : List Message) :
    mkDiagnosis b msgs = outageDiagnosis := by
  simp only [mkDiagnosis, classify_emotions, generate_ai_response_down b hb]
  decide

/-! ## The claims -/

/-- Claim C1: a chat request with valid fields whose message matches a crisis
keyword returns the fixed safety message with the caller's id, leaves the
session store exactly as it was (no session created, nothing appended), and
issues no backend call. -/
theorem claim_C1 (b : String → BackendOutcome) (st : SessionStore)
    (m i : String) (hm : m ≠ "") (hi : i ≠ "")
    (hc : check_for_crisis m = true) :
    chat b st ⟨some m, some i⟩ = ⟨st, .ok crisis_response i, []⟩ :=
  chat_crisis b st ⟨some m, some i⟩ (by simpa using hm) (by simpa using hi)
    (by simpa using hc)

/-- Witness for C1 at a concrete crisis request. -/
theorem claim_C1_witness :
    chat downBackend [] ⟨some "I want to end it all", some "u1"⟩ =
      ⟨[], .ok crisis_response "u1", []⟩ :=
  claim_C1 downBackend [] "I want to end it all" "u1" (by decide) (by decide)
    (by decide)

/-- Claim C8: crisis detection is true exactly when the lowercased text
contains one of the fixed keywords as a substring; in particular
"I want to KILL MYSELF" triggers and a keyword-free text does not. -/
theorem claim_C8 :
    (∀ msg : String, check_for_crisis msg = true ↔
      ∃ kw ∈ risk_keywords, ∃ pre post : List Char,
        pre ++ kw.data ++ post = (lowerStr msg).data) ∧
    check_for_crisis "I want to KILL MYSELF" = true ∧
    check_for_crisis "I am feeling much better today" = false := by
  refine ⟨?_, by decide, by decide⟩
  intro msg
  simp only [check_for_crisis, List.any_eq_true, hasSub_iff]

/-- Claim C10: an empty-string `message` or `id` field is rejected exactly
like a missing field — HTTP 400 with the same error body — and the store is
untouched. -/
theorem claim_C10 (b : String → BackendOutcome) (st : SessionStore)
    (mo io : Option String) :
    ((mo = some "" ∨ mo = none) →
      chat b st ⟨mo, io⟩ = ⟨st, .badRequest "Missing message or user ID", []⟩) ∧
    ((io = some "" ∨ io = none) →
      chat b st ⟨mo, io⟩ = ⟨st, .badRequest "Missing message or user ID", []⟩) := by
  constructor
  · intro h
    apply chat_invalid
    left
    rcases h with h | h <;> simp [h]
  · intro h
    apply chat_invalid
    right
    rcases h with h | h <;> simp [h]

/-- Witness for C10 at a concrete empty-message request. -/
theorem claim_C10_witness :
    chat downBackend [] ⟨some "", some "u"⟩ =
      ⟨[], .badRequest "Missing message or user ID", []⟩ :=
  (claim_C10 downBackend [] (some "") (some "u")).1 (Or.inl rfl)

/-- Claim C6: the diagnosis parser is a total function (it never raises), and
any field whose labelled line is absent — or whose numeric text fails to
parse — comes out as its fixed default: conditions "General stress",
severity 3, confidence 80. -/
theorem claim_C6 (response : String) :
    (firstFieldLine "- **Conditions:**" response = none →
      (parseDiagnosisFields response).1 = "General stress") ∧
    (firstFieldLine "- **Severity:**" response = none →
      (parseDiagnosisFields response).2.1 = 3) ∧
    (∀ l, firstFieldLine "- **Severity:**" response = some l →
      pyInt? (pyStrip ((pySplit "**Severity:**" l).getLastD "")) = none →
      (parseDiagnosisFields response).2.1 = 3) ∧
    (firstFieldLine "- **Confidence:**" response = none →
      (parseDiagnosisFields response).2.2 = 80) ∧
    (∀ l, firstFieldLine "- **Confidence:**" response = some l →
      pyInt? (pyReplace "%" "" (pyStrip ((pySplit "**Confidence:**" l).getLastD "")))
        = none →
      (parseDiagnosisFields response).2.2 = 80) := by
  refine ⟨?_, ?_, ?_, ?_, ?_⟩
  · intro h
    unfold parseDiagnosisFields parseTry
    cases hs : severityParsed response <;> cases hcf : confidenceParsed response <;>
      simp [conditionsParsed, h]
  · intro h
    have hs : severityParsed response = some 3 := by simp [severityParsed, h]
    unfold parseDiagnosisFields parseTry
    rw [hs]
    cases hcf : confidenceParsed response <;> simp
  · intro l hl hbad
    have hs : severityParsed response = none := by
      simp only [severityParsed, hl]
      exact hbad
    unfold parseDiagnosisFields parseTry
    rw [hs]
    simp
  · intro h
    have hcf : confidenceParsed response = some 80 := by simp [confidenceParsed, h]
    unfold parseDiagnosisFields parseTry
    rw [hcf]
    cases hs : severityParsed response <;> simp
  · intro l hl hbad
    have hcf : confidenceParsed response = none := by
      simp only [confidenceParsed, hl]
      exact hbad
    unfold parseDiagnosisFields parseTry
    rw [hcf]
    cases hs : severityParsed response <;> simp

/-- Witness for C6 at a concrete unparsable severity line. -/
theorem claim_C6_witness :
    (parseDiagnosisFields "- **Severity:** high").2.1 = 3 :=
  (claim_C6 "- **Severity:** high").2.2.1 "- **Severity:** high" (by decide)
    (by decide)

/-- Claim C2: an accepted chat call appends exactly one user message followed
by one assistant message (for every backend, including failing ones); from a
fresh session, N accepted calls give message length 2N; invalid and crisis
calls leave the store untouched. -/
theorem claim_C2 :
    (∀ (b : String → BackendOutcome) (st : SessionStore) (m i : String),
      m ≠ "" → i ≠ "" → check_for_crisis m = false →
      ∃ a s2, lookupSession (chat b st ⟨some m, some i⟩).sessions i = some s2 ∧
        s2.messages = (get_or_create_session st i).messages ++
          [⟨.user, m⟩, ⟨.assistant, a⟩]) ∧
    (∀ (b : String → BackendOutcome) (st : SessionStore) (i : String)
      (msgs : List String),
      (∀ m ∈ msgs, m ≠ "" ∧ check_for_crisis m = false) → i ≠ "" →
      lookupSession st i = none →
      sessionLen (runChats b st i msgs) i = 2 * msgs.length) ∧
    (∀ (b : String → BackendOutcome) (st : SessionStore) (data : ChatRequest),
      data.message.getD "" = "" ∨ data.id.getD "" = "" →
      (chat b st data).sessions = st) ∧
    (∀ (b : String → BackendOutcome) (st : SessionStore) (m i : String),
      check_for_crisis m = true → i ≠ "" →
      (chat b st ⟨some m, some i⟩).sessions = st) := by
  refine ⟨?_, ?_, ?_, ?_⟩
  · intro b st m i hm hi hc
    have hch := chat_accepted b st ⟨some m, some i⟩ (by simpa using hm)
      (by simpa using hi) (by simpa using hc)
    simp only [Option.getD_some] at hch
    rw [hch]
    exact ⟨assistantOf b (get_or_create_session st i) m, _, lookup_set_self st i _,
      stepSession_messages b (get_or_create_session st i) m⟩
  · intro b st i msgs h hi hnone
    have hlen := runChats_len b i msgs st h hi
    have h0 : sessionLen st i = 0 := by
      unfold sessionLen get_or_create_session
      rw [hnone]
      rfl
    rw [hlen, h0]
    simp
  · intro b st data h
    rw [chat_invalid b st data h]
  · intro b st m i hc hi
    by_cases hm : m = ""
    · rw [chat_invalid b st _ (Or.inl (by simp [hm]))]
    · rw [chat_crisis b st _ (by simpa using hm) (by simpa using hi)
        (by simpa using hc)]

/-- Witness for C2 at a concrete accepted request on an empty store. -/
theorem claim_C2_witness :
    ∃ a s2, lookupSession (chat downBackend [] ⟨some "hello", some "u"⟩).sessions
        "u" = some s2 ∧
      s2.messages = (get_or_create_session [] "u").messages ++
        [⟨.user, "hello"⟩, ⟨.assistant, a⟩] :=
  claim_C2.1 downBackend [] "hello" "u" (by decide) (by decide) (by decide)

/-- Claim C3: on an accepted call, an already-formed diagnosis is never
recomputed or replaced (also across any number of further calls); the
diagnosis and therapy plan are formed exactly when the user append brings the
message count to at least 5 with no diagnosis present; below the threshold no
diagnosis is formed. -/
theorem claim_C3 (b : String → BackendOutcome) (st : SessionStore)
    (m i : String) (hm : m ≠ "") (hi : i ≠ "")
    (hc : check_for_crisis m = false) :
    (∃ s2, lookupSession (chat b st ⟨some m, some i⟩).sessions i = some s2 ∧
      (∀ d, (get_or_create_session st i).diagnosis = some d →
        s2.diagnosis = some d) ∧
      ((get_or_create_session st i).diagnosis = none →
        (get_or_create_session st i).messages.length + 1 ≥ 5 →
        s2.diagnosis = some (mkDiagnosis b
          ((get_or_create_session st i).messages ++ [⟨.user, m⟩])) ∧
        s2.therapy_plan = generate_coping_strategies b (mkDiagnosis b
          ((get_or_create_session st i).messages ++ [⟨.user, m⟩]))) ∧
      ((get_or_create_session st i).diagnosis = none →
        (get_or_create_session st i).messages.length + 1 < 5 →
        s2.diagnosis = none)) ∧
    (∀ (d : Diagnosis) (msgs : List String),
      (get_or_create_session st i).diagnosis = some d →
      (get_or_create_session (runChats b st i msgs) i).diagnosis = some d) := by
  constructor
  · have hch := chat_accepted b st ⟨some m, some i⟩ (by simpa using hm)
      (by simpa using hi) (by simpa using hc)
    simp only [Option.getD_some] at hch
    rw [hch]
    refine ⟨_, lookup_set_self st i _, ?_, ?_, ?_⟩
    · intro d hd
      rw [stepSession_diag, sessionAfterDiagnose_diag, if_neg]
      · exact hd
      · rintro ⟨-, hnone⟩
        have hx : (afterUser (get_or_create_session st i) m).diagnosis = some d := hd
        rw [hx] at hnone
        cases hnone
    · intro hnone h5
      have hcond : (afterUser (get_or_create_session st i) m).messages.length ≥ 5 ∧
          (afterUser (get_or_create_session st i) m).diagnosis = none := by
        refine ⟨?_, hnone⟩
        simpa [afterUser] using h5
      have hmsg : (afterUser (get_or_create_session st i) m).messages =
          (get_or_create_session st i).messages ++ [⟨.user, m⟩] := rfl
      constructor
      · rw [stepSession_diag, sessionAfterDiagnose_diag, if_pos hcond, hmsg]
      · rw [stepSession_plan, sessionAfterDiagnose_plan, if_pos hcond, hmsg]
    · intro hnone h5
      rw [stepSession_diag, sessionAfterDiagnose_diag, if_neg]
      · exact hnone
      · rintro ⟨hlen, -⟩
        simp only [afterUser, List.length_append, List.length_cons,
          List.length_nil] at hlen
        omega
  · intro d msgs hd
    exact runChats_diag_preserved b i d msgs st hd

/-- Witness for C3: the fifth message of a concrete session forms the
diagnosis. -/
theorem claim_C3_witness :
    ∃ s2, lookupSession (chat downBackend sampleStore4
        ⟨some "feeling low", some "u"⟩).sessions "u" = some s2 ∧
      s2.diagnosis = some (mkDiagnosis downBackend
        ((get_or_create_session sampleStore4 "u").messages ++
          [⟨.user, "feeling low"⟩])) := by
  obtain ⟨⟨s2, hl, -, htrig, -⟩, -⟩ := claim_C3 downBackend sampleStore4
    "feeling low" "u" (by decide) (by decide) (by decide)
  exact ⟨s2, hl, (htrig (by decide) (by decide)).1⟩

/-- Claim C4: on an accepted call the stored completed flag is true exactly
when it already was or the post-append message count has reached 10 (so it
turns true exactly on the first call reaching 10), and once true it stays
true across any further calls. -/
theorem claim_C4 (b : String → BackendOutcome) (st : SessionStore)
    (m i : String) (hm : m ≠ "") (hi : i ≠ "")
    (hc : check_for_crisis m = false) :
    (∃ s2, lookupSession (chat b st ⟨some m, some i⟩).sessions i = some s2 ∧
      (s2.completed = true ↔
        ((get_or_create_session st i).completed = true ∨
          s2.messages.length ≥ 10))) ∧
    (∀ msgs : List String, (get_or_create_session st i).completed = true →
      (get_or_create_session (runChats b st i msgs) i).completed = true) := by
  constructor
  · have hch := chat_accepted b st ⟨some m, some i⟩ (by simpa using hm)
      (by simpa using hi) (by simpa using hc)
    simp only [Option.getD_some] at hch
    rw [hch]
    exact ⟨_, lookup_set_self st i _,
      stepSession_completed_iff b (get_or_create_session st i) m⟩
  · intro msgs h
    exact runChats_completed_preserved b i msgs st h

/-- Witness for C4: the call that brings a concrete session to 10 messages. -/
theorem claim_C4_witness :
    ∃ s2, lookupSession (chat downBackend sampleStore8
        ⟨some "thank you", some "u"⟩).sessions "u" = some s2 ∧
      (s2.completed = true ↔
        ((get_or_create_session sampleStore8 "u").completed = true ∨
          s2.messages.length ≥ 10)) :=
  (claim_C4 downBackend sampleStore8 "thank you" "u" (by decide) (by decide)
    (by decide)).1

/-- Claim C5: when every backend call raises a network error, an accepted
chat call still produces an ok (HTTP 200) response whose text is the fixed
fallback apology (possibly with the conclusion notice suffixed), the fallback
is stored as the assistant message, and no exception escapes. -/
theorem claim_C5 (b : String → BackendOutcome) (st : SessionStore)
    (m i : String) (hm : m ≠ "") (hi : i ≠ "")
    (hc : check_for_crisis m = false)
    (hb : ∀ p, b p = BackendOutcome.requestError) :
    ∃ s2, lookupSession (chat b st ⟨some m, some i⟩).sessions i = some s2 ∧
      ((chat b st ⟨some m, some i⟩).response = .ok requestFallback i ∨
        (chat b st ⟨some m, some i⟩).response =
          .ok (requestFallback ++ conclusionSuffix) i) ∧
      s2.messages.getLast? = some ⟨.assistant, requestFallback⟩ := by
  have hch := chat_accepted b st ⟨some m, some i⟩ (by simpa using hm)
    (by simpa using hi) (by simpa using hc)
  simp only [Option.getD_some] at hch
  have ha : assistantOf b (get_or_create_session st i) m = requestFallback :=
    generate_ai_response_down b hb _
  rw [hch]
  refine ⟨_, lookup_set_self st i _, ?_, ?_⟩
  · rw [stepSession_out, ha]
    by_cases hcond : (get_or_create_session st i).messages.length + 2 ≥ 10 ∧
        (get_or_create_session st i).completed = false
    · rw [if_pos hcond]
      exact Or.inr rfl
    · rw [if_neg hcond]
      exact Or.inl rfl
  · rw [stepSession_messages, ha]
    rw [show (get_or_create_session st i).messages ++
        [(⟨.user, m⟩ : Message), ⟨.assistant, requestFallback⟩] =
        ((get_or_create_session st i).messages ++ [⟨.user, m⟩]) ++
          [⟨.assistant, requestFallback⟩] by simp]
    exact List.getLast?_concat _

/-- Witness for C5 at a concrete accepted request against a down backend. -/
theorem claim_C5_witness :
    ∃ s2, lookupSession (chat downBackend [] ⟨some "hi there", some "u"⟩).sessions
        "u" = some s2 ∧
      ((chat downBackend [] ⟨some "hi there", some "u"⟩).response =
          .ok requestFallback "u" ∨
        (chat downBackend [] ⟨some "hi there", some "u"⟩).response =
          .ok (requestFallback ++ conclusionSuffix) "u") ∧
      s2.messages.getLast? = some ⟨.assistant, requestFallback⟩ :=
  claim_C5 downBackend [] "hi there" "u" (by decide) (by decide) (by decide)
    (fun _ => rfl)

/-- Claim C7: on the accepted call that completes a session (flag not yet set,
post-append count at least 10) the conclusion notice is suffixed to the
outgoing response text, while the stored assistant message keeps the plain
text — nothing extra is appended to the history. -/
theorem claim_C7 (b : String → BackendOutcome) (st : SessionStore)
    (m i : String) (hm : m ≠ "") (hi : i ≠ "")
    (hc : check_for_crisis m = false)
    (hnc : (get_or_create_session st i).completed = false)
    (hlen : (get_or_create_session st i).messages.length + 2 ≥ 10) :
    ∃ a s2, lookupSession (chat b st ⟨some m, some i⟩).sessions i = some s2 ∧
      (chat b st ⟨some m, some i⟩).response = .ok (a ++ conclusionSuffix) i ∧
      s2.messages = (get_or_create_session st i).messages ++
        [⟨.user, m⟩, ⟨.assistant, a⟩] ∧
      s2.completed = true := by
  have hch := chat_accepted b st ⟨some m, some i⟩ (by simpa using hm)
    (by simpa using hi) (by simpa using hc)
  simp only [Option.getD_some] at hch
  rw [hch]
  refine ⟨assistantOf b (get_or_create_session st i) m, _,
    lookup_set_self st i _, ?_, stepSession_messages b _ m, ?_⟩
  · rw [stepSession_out, if_pos ⟨hlen, hnc⟩]
  · rw [stepSession_completed_iff]
    right
    rw [stepSession_len]
    omega

/-- Witness for C7: the concluding call on a concrete eight-message session. -/
theorem claim_C7_witness :
    ∃ a s2, lookupSession (chat downBackend sampleStore8
        ⟨some "thanks", some "u"⟩).sessions "u" = some s2 ∧
      (chat downBackend sampleStore8 ⟨some "thanks", some "u"⟩).response =
        .ok (a ++ conclusionSuffix) "u" ∧
      s2.messages = (get_or_create_session sampleStore8 "u").messages ++
        [⟨.user, "thanks"⟩, ⟨.assistant, a⟩] ∧
      s2.completed = true :=
  claim_C7 downBackend sampleStore8 "thanks" "u" (by decide) (by decide)
    (by decide) (by decide) (by decide)

/-- Claim C9: `diagnose` always stores a present diagnosis; under a total
backend outage every formed diagnosis is exactly the default one (fallback
text as sole emotion, conditions "General stress", severity 3,
confidence 80) — and since a stored diagnosis is never replaced on any later
call, the outage permanently consumes the session's one-time diagnosis. -/
theorem claim_C9 :
    (∀ (b : String → BackendOutcome) (s : Session),
      (diagnose b s).diagnosis = some (mkDiagnosis b s.messages)) ∧
    (∀ b : String → BackendOutcome, (∀ p, b p = BackendOutcome.requestError) →
      ∀ msgs : List Message, mkDiagnosis b msgs = outageDiagnosis) ∧
    (∀ b : String → BackendOutcome, (∀ p, b p = BackendOutcome.requestError) →
      ∀ (s : Session) (m : String), s.diagnosis = none →
        s.messages.length + 1 ≥ 5 →
        (stepSession b s m).1.diagnosis = some outageDiagnosis) ∧
    (∀ (b : String → BackendOutcome) (st : SessionStore) (m i : String)
      (d : Diagnosis), (get_or_create_session st i).diagnosis = some d →
      (get_or_create_session (chat b st ⟨some m, some i⟩).sessions i).diagnosis
        = some d) := by
  refine ⟨fun b s => rfl, ?_, ?_, ?_⟩
  · intro b hb msgs
    exact mkDiagnosis_outage b hb msgs
  · intro b hb s m hnone h5
    rw [stepSession_diag, sessionAfterDiagnose_diag, if_pos, mkDiagnosis_outage b hb]
    refine ⟨?_, hnone⟩
    simpa [afterUser] using h5
  · intro b st m i d hd
    exact chat_same_id_diag b st m i d hd

/-- Witness for C9: a total outage during the diagnosis transition of a
concrete session stores the default diagnosis. -/
theorem claim_C9_witness :
    (stepSession downBackend sampleSession4 "worried").1.diagnosis =
      some outageDiagnosis :=
  claim_C9.2.2.1 downBackend (fun _ => rfl) sampleSession4 "worried" (by decide)
    (by decide)

end TheraAI
